import Mathlib

/-!
Shallow embedding of `src/charm.py` (class `RatingsCharm`) from the
container-runner-operator repository.

The charm reacts to Juju lifecycle events (install, start, upgrade-charm,
database-created).  External collaborators — the `ContainerRunner`
(install / run / configure) and the Juju host API — are modelled
explicitly: relation databags and the process environment are partial maps
from strings to strings, host secret storage is an association list from
secret id to the stored `jwt-secret` content, and fallible external calls
are driven by a behaviour record saying whether each call raises (an
exception carries its `str(e)` message).  A handler that lets an
exception escape to the host process is an `Except.error`; a handler that
returns normally is `Except.ok` with the updated world state.
-/

namespace RatingsCharm

/-- A string-keyed partial map: relation databags and the process
environment (`os.environ`).  `none` means the key is absent. -/
def SMap : Type := String → Option String

/-- `m[k] = v` on a partial map (Python `dict.__setitem__` /
`os.environ[k] = v`). -/
def SMap.set (m : SMap) (k v : String) : SMap :=
  fun q => if q = k then some v else m q

/-- Reading a key after `SMap.set`. -/
theorem SMap.get_set (m : SMap) (k v q : String) :
    SMap.set m k v q = if q = k then some v else m q := rfl

/-- Python truthiness of `dict.get(key)`: `None` and the empty string are
falsy, any other string is truthy. -/
def truthy : Option String → Bool
  | none => false
  | some v => v != ""

/-- Unit status as set by the handlers (`ops.MaintenanceStatus`,
`ops.WaitingStatus`, `ops.ActiveStatus`, `ops.BlockedStatus`).
`ActiveStatus()` carries no message. -/
inductive Status
  | maintenance (msg : String)
  | waiting (msg : String)
  | active
  | blocked (msg : String)
deriving DecidableEq

/-- One observable call into the external collaborators, recorded in
order.  `configure` with the five keyword options is the call
`_update_service_config` intends at `self._ratings.configure(...)`;
`configureEnv` is the call `_on_start` makes with the loaded env-file
variables; `openPort` is `self.unit.open_port(protocol="tcp", port=...)`. -/
inductive ExtCall
  | install
  | run
  | configureEnv (envVars : List (String × String))
  | configure (jwt_secret postgres_uri migration_postgres_uri log_level env : String)
  | openPort (port : Nat)
deriving DecidableEq

/-- The world the handlers read and mutate: unit status, process
environment, the `database` relation databag (`none` = relation missing),
the `ratings-peers` application databag, host secret storage (secret id to
the content stored under the `jwt-secret` key), a counter generating fresh
secret ids, leadership, the env-file variables loaded at construction
(`self._env_vars`), the charm config options `log-level` and `env`, the
opened ports, and the trace of external calls. -/
structure CharmState where
  status : Status
  processEnv : SMap
  dbRelation : Option SMap
  peerRelation : Option SMap
  secretsStore : List (String × String)
  nextSecretId : Nat
  isLeader : Bool
  envVars : List (String × String)
  configLogLevel : String
  configEnv : String
  openPorts : List Nat
  calls : List ExtCall

/-- Whether each fallible external call raises (`some msg` = raises an
exception whose `str(e)` is `msg`) or succeeds (`none`). -/
structure RunnerBehavior where
  installResult : Option String
  runResult : Option String
  configureResult : Option String

/-- `self.unit.status = st`. -/
def setStatus (s : CharmState) (st : Status) : CharmState :=
  { s with status := st }

/-- Append one external call to the trace. -/
def recordCall (s : CharmState) (c : ExtCall) : CharmState :=
  { s with calls := s.calls ++ [c] }

/-- `_set_proxy`, as a function on the process environment: read
`JUJU_CHARM_HTTP_PROXY`; if it is truthy, copy it into `HTTP_PROXY` and
`HTTPS_PROXY`; otherwise do nothing. -/
def set_proxy_env (e : SMap) : SMap :=
  match e "JUJU_CHARM_HTTP_PROXY" with
  | none => e
  | some v => if v = "" then e else (e.set "HTTP_PROXY" v).set "HTTPS_PROXY" v

/-- `_set_proxy` acting on the charm state. -/
def set_proxy (s : CharmState) : CharmState :=
  { s with processEnv := set_proxy_env s.processEnv }

/-- `_db_connection_string`: if the `database` relation is missing return
`""`; otherwise read `username`, `password`, `endpoints` from the relation
databag and, when all three are truthy, format the PostgreSQL URI, else
return `""`. -/
def db_connection_string (s : CharmState) : String :=
  match s.dbRelation with
  | none => ""
  | some data =>
    let username := data "username"
    let password := data "password"
    let endpoints := data "endpoints"
    if truthy username && truthy password && truthy endpoints then
      "postgres://" ++ username.getD "" ++ ":" ++ password.getD "" ++ "@"
        ++ endpoints.getD "" ++ "/ratings"
    else ""

/-- The fresh id `self.app.add_secret(...)` hands back for the `n`-th
secret created in the model. -/
def secretName (n : Nat) : String := "secret:" ++ toString n

/-- `self.model.get_secret(id=sid).peek_content().get("jwt-secret")`:
look the id up in host secret storage. -/
def lookupSecret (store : List (String × String)) (sid : String) : Option String :=
  (store.find? (fun p => p.1 == sid)).map Prod.snd

/-- The state after the leader branch of `_jwt_secret`: `add_secret`
stores the content `{"jwt-secret": token}` under a fresh id and the id is
published in the peer databag under `jwt-secret-id`. -/
def jwtCreatedState (token : String) (s : CharmState) (bag : SMap) : CharmState :=
  { s with
    secretsStore := (secretName s.nextSecretId, token) :: s.secretsStore
    nextSecretId := s.nextSecretId + 1
    peerRelation := some (bag.set "jwt-secret-id" (secretName s.nextSecretId)) }

/-- `_jwt_secret`.  `token` is the value `secrets.token_hex(24)` would
produce if a secret is created.  If the `ratings-peers` relation is
missing, return `""`.  If the peer databag holds `jwt-secret-id`, fetch
that secret and return its content (a dangling id makes
`model.get_secret` raise `SecretNotFoundError`, which propagates).  Else,
on the leader create and publish a new secret and return its content; on
a non-leader return `""`. -/
def jwt_secret (token : String) (s : CharmState) :
    Except String (String × CharmState) :=
  match s.peerRelation with
  | none => .ok ("", s)
  | some bag =>
    match bag "jwt-secret-id" with
    | some sid =>
      match lookupSecret s.secretsStore sid with
      | some content => .ok (content, s)
      | none => .error "SecretNotFoundError"
    | none =>
      if s.isLeader then .ok (token, jwtCreatedState token s bag)
      else .ok ("", s)

/-- `str(e)` of the `AttributeError` raised at `self._ratings.configure`:
the charm object has no attribute `_ratings` (its constructor only
assigns `self._container_runner`). -/
def attrErrorMsg : String :=
  "\x27RatingsCharm\x27 object has no attribute \x27_ratings\x27"

/-- `_update_service_config`.  If the `database` relation is missing, set
waiting status and return.  Otherwise set maintenance status, compute the
connection string and the JWT secret (a `SecretNotFoundError` from a
dangling id propagates — these steps are outside the try block), run
`_set_proxy`, then enter the try block: `self._ratings.configure(...)`
evaluates the attribute `self._ratings` first, which raises
`AttributeError` (the attribute is never assigned), so the configure call
is never made, the port is never opened, and the except block sets
blocked status with the message text. -/
def update_service_config (token : String) (s : CharmState) :
    Except String CharmState :=
  match s.dbRelation with
  | none => .ok (setStatus s (.waiting "Waiting for database relation"))
  | some _ =>
    let s1 := setStatus s (.maintenance "Attempting to update Ratings config.")
    let _connection_string := db_connection_string s1
    match jwt_secret token s1 with
    | .error e => .error e
    | .ok (_jwt, s2) =>
      let s3 := set_proxy s2
      .ok (setStatus s3 (.blocked ("Failed to start Ratings service: " ++ attrErrorMsg)))

/-- `_on_database_created` delegates to `_update_service_config`. -/
def on_database_created (token : String) (s : CharmState) :
    Except String CharmState :=
  update_service_config token s

/-- `_on_install`: set maintenance status, call the installer inside the
try block; on success set maintenance "Installation complete, waiting for
database.", on failure set blocked with `str(e)`. -/
def on_install (b : RunnerBehavior) (s : CharmState) :
    Except String CharmState :=
  let s1 := recordCall (setStatus s (.maintenance "Installing Container Runner")) .install
  match b.installResult with
  | none => .ok (setStatus s1 (.maintenance "Installation complete, waiting for database."))
  | some e => .ok (setStatus s1 (.blocked e))

/-- `_on_start`: `self._container_runner.run()` is called before the try
block, so a failure there propagates out of the handler.  Inside the try
block: if the loaded env-file variables are non-empty, configure the
runner with them (a failure is caught and sets blocked status); on the
success path set active status.  After the try/except, active status is
assigned unconditionally. -/
def on_start (b : RunnerBehavior) (s : CharmState) :
    Except String CharmState :=
  match b.runResult with
  | some e => .error e
  | none =>
    let s1 := recordCall s .run
    let s2 :=
      if s1.envVars.isEmpty then setStatus s1 .active
      else
        let s1a := recordCall s1 (.configureEnv s1.envVars)
        match b.configureResult with
        | none => setStatus s1a .active
        | some e => setStatus s1a (.blocked ("Failed to start Ratings service: " ++ e))
    .ok (setStatus s2 .active)

/-- `_on_upgrade_charm`: set maintenance status "upgrade hook called". -/
def on_upgrade_charm (s : CharmState) : Except String CharmState :=
  .ok (setStatus s (.maintenance "upgrade hook called"))

/-- The status a handler ends with, when it returns normally. -/
def resultStatus : Except String CharmState → Option Status
  | .ok s => some s.status
  | .error _ => none

/-- The external calls a handler has made, when it returns normally. -/
def resultCalls : Except String CharmState → Option (List ExtCall)
  | .ok s => some s.calls
  | .error _ => none

/-- Whether a handler returned normally (no exception escaped). -/
def isOk : Except String CharmState → Bool
  | .ok _ => true
  | .error _ => false

/-- Whether an external call is the five-option `configure` call. -/
def isConfigureCall : ExtCall → Bool
  | .configure _ _ _ _ _ => true
  | _ => false

/-- The databag / environment with no keys. -/
def emptyBag : SMap := fun _ => none

/-- A database relation databag with the three expected keys. -/
def sampleDbBag : SMap := fun k =>
  if k = "username" then some "u"
  else if k = "password" then some "p"
  else if k = "endpoints" then some "host:5432"
  else none

/-- A concrete world state: leader unit, no relations, nothing loaded. -/
def baseState : CharmState :=
  { status := .maintenance ""
    processEnv := emptyBag
    dbRelation := none
    peerRelation := none
    secretsStore := []
    nextSecretId := 0
    isLeader := true
    envVars := []
    configLogLevel := "info"
    configEnv := "production"
    openPorts := []
    calls := [] }

/-- A behaviour where every external call succeeds. -/
def okBehavior : RunnerBehavior :=
  { installResult := none, runResult := none, configureResult := none }

/-- A behaviour where the runner's `run()` raises. -/
def runFailBehavior : RunnerBehavior :=
  { installResult := none, runResult := some "runner failed", configureResult := none }

/-- A behaviour where the runner's `configure` raises. -/
def cfgFailBehavior : RunnerBehavior :=
  { installResult := none, runResult := none, configureResult := some "cfg boom" }

/-- A behaviour where the installer raises. -/
def installFailBehavior : RunnerBehavior :=
  { installResult := some "snap install failed", runResult := none, configureResult := none }

/-- The base state with the database relation populated. -/
def dbReadyState : CharmState :=
  { baseState with dbRelation := some sampleDbBag }

/-- The base state with both the database and the peer relation present. -/
def relatedState : CharmState :=
  { baseState with dbRelation := some sampleDbBag, peerRelation := some emptyBag }

/-- The base state with env-file variables loaded. -/
def envLoadedState : CharmState :=
  { baseState with envVars := [("RUST_LOG", "debug")] }

/-- A leader state with the peer relation present and no secret yet. -/
def peeredState : CharmState :=
  { baseState with peerRelation := some emptyBag }

/-- A non-leader state with the peer relation present and no secret yet. -/
def followerState : CharmState :=
  { baseState with peerRelation := some emptyBag, isLeader := false }

/-- Every `jwt-secret-id` published in the peer databag resolves in host
secret storage (no dangling secret id). -/
def secretIdResolvable (s : CharmState) : Prop :=
  ∀ bag sid, s.peerRelation = some bag → bag "jwt-secret-id" = some sid →
    ∃ c, lookupSecret s.secretsStore sid = some c

/-- With no dangling secret id, `_jwt_secret` returns normally. -/
theorem jwt_secret_ok_of_resolvable (token : String) (s : CharmState)
    (h : secretIdResolvable s) :
    ∃ v s2, jwt_secret token s = .ok (v, s2) := by
  cases hp : s.peerRelation with
  | none => exact ⟨"", s, by simp [jwt_secret, hp]⟩
  | some bag =>
    cases hid : bag "jwt-secret-id" with
    | some sid =>
      obtain ⟨c, hc⟩ := h bag sid hp hid
      exact ⟨c, s, by simp [jwt_secret, hp, hid, hc]⟩
    | none =>
      cases hl : s.isLeader with
      | true =>
        exact ⟨token, jwtCreatedState token s bag, by simp [jwt_secret, hp, hid, hl]⟩
      | false => exact ⟨"", s, by simp [jwt_secret, hp, hid, hl]⟩

/-- C1 (code bug): on a database-created event with the database relation
present, the handler never reaches the runner: `self._ratings` raises
`AttributeError` inside the try block, so no `configure` call is made (the
call trace stays empty) and the unit ends blocked with the attribute-error
text, instead of the configure push the claim describes. -/
theorem c1_database_created_never_configures :
    resultStatus (on_database_created "0123456789abcdef" relatedState)
      = some (.blocked ("Failed to start Ratings service: " ++ attrErrorMsg)) ∧
    resultCalls (on_database_created "0123456789abcdef" relatedState) = some [] :=
  ⟨rfl, rfl⟩

/-- C2 counterexample: the start handler calls the runner's `run()` before
its try block, so when `run()` raises, the exception escapes the handler
instead of being downgraded to a blocked status. -/
theorem c2_counterexample_run_escapes :
    on_start runFailBehavior baseState = .error "runner failed" := rfl

/-- C2 (amended): failures raised inside a handler's try block are caught
and never escape — install and upgrade always return normally, start
returns normally whenever `run()` (called before its try block) does not
raise and escapes exactly with the message of a raised `run()`, and
database-created returns normally whenever no dangling secret id makes
the host secret lookup (performed before its try block) raise. -/
theorem c2_handlers_catch_try_block_failures (b : RunnerBehavior)
    (s : CharmState) (token : String) :
    isOk (on_install b s) = true ∧
    isOk (on_upgrade_charm s) = true ∧
    (∀ e, on_start b s = .error e → b.runResult = some e) ∧
    (b.runResult = none → isOk (on_start b s) = true) ∧
    (secretIdResolvable s → isOk (on_database_created token s) = true) := by
  refine ⟨?_, rfl, ?_, ?_, ?_⟩
  · unfold on_install
    cases b.installResult <;> rfl
  · intro e h
    cases hr : b.runResult with
    | some e2 =>
      simp only [on_start, hr, Except.error.injEq] at h
      rw [h]
    | none => simp [on_start, hr] at h
  · intro h
    simp only [on_start, h]
    rfl
  · intro hres
    cases hdb : s.dbRelation with
    | none => simp [on_database_created, update_service_config, hdb, isOk]
    | some d =>
      obtain ⟨v, s2, hjs⟩ := jwt_secret_ok_of_resolvable token
        (setStatus s (.maintenance "Attempting to update Ratings config.")) hres
      simp [on_database_created, update_service_config, hdb, hjs, isOk]

/-- C2 witness: at a concrete behaviour and state, start and
database-created return normally. -/
theorem c2_witness :
    isOk (on_start okBehavior baseState) = true ∧
    isOk (on_database_created "tok" baseState) = true :=
  ⟨(c2_handlers_catch_try_block_failures okBehavior baseState "tok").2.2.2.1 rfl,
   (c2_handlers_catch_try_block_failures okBehavior baseState "tok").2.2.2.2
     (fun _ _ hp _ => Option.noConfusion hp)⟩

/-- C3: whenever the start handler runs to completion (no exception
escapes), the final unit status is active — the unconditional assignment
after the try/except overwrites even a blocked status set by the except
block. -/
theorem c3_start_completion_ends_active (b : RunnerBehavior) (s : CharmState)
    (h : isOk (on_start b s) = true) :
    resultStatus (on_start b s) = some Status.active := by
  cases hr : b.runResult with
  | some e => simp [on_start, hr, isOk] at h
  | none =>
    simp only [on_start, hr]
    rfl

/-- C3 witness: with a failing `configure` and non-empty env-file
variables, the start handler completes and still ends active. -/
theorem c3_witness :
    resultStatus (on_start cfgFailBehavior envLoadedState) = some Status.active :=
  c3_start_completion_ends_active cfgFailBehavior envLoadedState rfl

/-- C4: the connection-string builder yields
`postgres://<username>:<password>@<endpoints>/ratings` when the relation
exists and `username`, `password`, `endpoints` are all present and
non-empty, and yields `""` when the relation is missing or any of the
three is absent or empty. -/
theorem c4_db_connection_string_spec (s : CharmState) :
    (∀ d u p ep, s.dbRelation = some d →
      d "username" = some u → d "password" = some p → d "endpoints" = some ep →
      u ≠ "" → p ≠ "" → ep ≠ "" →
      db_connection_string s
        = "postgres://" ++ u ++ ":" ++ p ++ "@" ++ ep ++ "/ratings") ∧
    (s.dbRelation = none → db_connection_string s = "") ∧
    (∀ d, s.dbRelation = some d →
      truthy (d "username") = false ∨ truthy (d "password") = false ∨
        truthy (d "endpoints") = false →
      db_connection_string s = "") := by
  refine ⟨?_, ?_, ?_⟩
  · intro d u p ep hd hu hp hep hu0 hp0 hep0
    simp [db_connection_string, hd, hu, hp, hep, truthy, hu0, hp0, hep0]
  · intro h
    simp [db_connection_string, h]
  · intro d hd htr
    rcases htr with h | h | h <;> simp [db_connection_string, hd, h]

/-- C4 witness: the spec's concrete example and the missing-relation
case. -/
theorem c4_witness :
    db_connection_string dbReadyState = "postgres://u:p@host:5432/ratings" ∧
    db_connection_string baseState = "" :=
  ⟨(c4_db_connection_string_spec dbReadyState).1 sampleDbBag "u" "p" "host:5432"
      rfl rfl rfl rfl (by decide) (by decide) (by decide),
   (c4_db_connection_string_spec baseState).2.1 rfl⟩

/-- C5: on the leader with the peer relation present and no secret id in
the peer databag, the first call to `_jwt_secret` creates and stores the
secret, publishes its id under `jwt-secret-id` in the peer databag, and
returns the token; a second call on the resulting state resolves that id
and returns the same value without changing the state. -/
theorem c5_jwt_secret_idempotent (s : CharmState) (bag : SMap) (t1 t2 : String)
    (hpeer : s.peerRelation = some bag) (hno : bag "jwt-secret-id" = none)
    (hlead : s.isLeader = true) :
    jwt_secret t1 s = .ok (t1, jwtCreatedState t1 s bag) ∧
    (jwtCreatedState t1 s bag).peerRelation
      = some (SMap.set bag "jwt-secret-id" (secretName s.nextSecretId)) ∧
    jwt_secret t2 (jwtCreatedState t1 s bag) = .ok (t1, jwtCreatedState t1 s bag) := by
  refine ⟨?_, rfl, ?_⟩
  · simp [jwt_secret, hpeer, hno, hlead]
  · simp [jwt_secret, jwtCreatedState, SMap.set, lookupSecret]

/-- C5 witness: two calls at a concrete leader state return the first
token both times. -/
theorem c5_witness :
    jwt_secret "aa" peeredState = .ok ("aa", jwtCreatedState "aa" peeredState emptyBag) ∧
    (jwtCreatedState "aa" peeredState emptyBag).peerRelation
      = some (SMap.set emptyBag "jwt-secret-id" (secretName 0)) ∧
    jwt_secret "bb" (jwtCreatedState "aa" peeredState emptyBag)
      = .ok ("aa", jwtCreatedState "aa" peeredState emptyBag) :=
  c5_jwt_secret_idempotent peeredState emptyBag "aa" "bb" rfl rfl rfl

/-- C6: with the peer relation present, no `jwt-secret-id` in the peer
databag, and a non-leader unit, `_jwt_secret` returns the empty string
and leaves the state (secret storage and databags included) untouched. -/
theorem c6_jwt_secret_nonleader (token : String) (s : CharmState) (bag : SMap)
    (hpeer : s.peerRelation = some bag) (hno : bag "jwt-secret-id" = none)
    (hlead : s.isLeader = false) :
    jwt_secret token s = .ok ("", s) := by
  simp [jwt_secret, hpeer, hno, hlead]

/-- C6 witness: a concrete non-leader state. -/
theorem c6_witness : jwt_secret "tok" followerState = .ok ("", followerState) :=
  c6_jwt_secret_nonleader "tok" followerState emptyBag rfl rfl rfl

/-- C7: a database-created event with no database relation sets waiting
status and changes nothing else: the handler returns the input state with
only the status replaced, so the call trace, secret storage, peer
databag, open ports and process environment are untouched. -/
theorem c7_waiting_no_side_effects (token : String) (s : CharmState)
    (h : s.dbRelation = none) :
    on_database_created token s
      = .ok (setStatus s (.waiting "Waiting for database relation")) ∧
    (setStatus s (.waiting "Waiting for database relation")).calls = s.calls ∧
    (setStatus s (.waiting "Waiting for database relation")).secretsStore
      = s.secretsStore ∧
    (setStatus s (.waiting "Waiting for database relation")).openPorts
      = s.openPorts ∧
    (setStatus s (.waiting "Waiting for database relation")).processEnv
      = s.processEnv ∧
    (setStatus s (.waiting "Waiting for database relation")).peerRelation
      = s.peerRelation := by
  refine ⟨?_, rfl, rfl, rfl, rfl, rfl⟩
  simp [on_database_created, update_service_config, h]

/-- C7 witness: the concrete base state has no database relation. -/
theorem c7_witness :
    on_database_created "tok" baseState
      = .ok (setStatus baseState (.waiting "Waiting for database relation")) ∧
    (setStatus baseState (.waiting "Waiting for database relation")).calls
      = baseState.calls :=
  ⟨(c7_waiting_no_side_effects "tok" baseState rfl).1,
   (c7_waiting_no_side_effects "tok" baseState rfl).2.1⟩

/-- C8 counterexample: when the installer succeeds, the install handler
ends in maintenance status with the message "Installation complete,
waiting for database.", not with the message "waiting for database." the
claim states. -/
theorem c8_counterexample_success_message :
    resultStatus (on_install okBehavior baseState)
      = some (.maintenance "Installation complete, waiting for database.") ∧
    Status.maintenance "Installation complete, waiting for database."
      ≠ Status.maintenance "waiting for database." :=
  ⟨rfl, by decide⟩

/-- C8 (amended): when the installer raises, the install handler ends
blocked with exactly the raised error text (which therefore contains it);
when the installer succeeds, it ends in maintenance status with the
message "Installation complete, waiting for database.". -/
theorem c8_install_outcomes (b : RunnerBehavior) (s : CharmState) :
    (∀ e, b.installResult = some e →
      resultStatus (on_install b s) = some (.blocked e)) ∧
    (b.installResult = none →
      resultStatus (on_install b s)
        = some (.maintenance "Installation complete, waiting for database.")) := by
  constructor
  · intro e h
    simp only [on_install, h]
    rfl
  · intro h
    simp only [on_install, h]
    rfl

/-- C8 witness: a failing and a succeeding install at concrete inputs. -/
theorem c8_witness :
    resultStatus (on_install installFailBehavior baseState)
      = some (.blocked "snap install failed") ∧
    resultStatus (on_install okBehavior baseState)
      = some (.maintenance "Installation complete, waiting for database.") :=
  ⟨(c8_install_outcomes installFailBehavior baseState).1 "snap install failed" rfl,
   (c8_install_outcomes okBehavior baseState).2 rfl⟩

/-- The process environment where the proxy variable is present but
empty. -/
def envProxyEmpty : SMap :=
  fun k => if k = "JUJU_CHARM_HTTP_PROXY" then some "" else none

/-- The process environment where the proxy variable holds a URL. -/
def envProxySet : SMap :=
  fun k => if k = "JUJU_CHARM_HTTP_PROXY" then some "http://squid:3128" else none

/-- C9 counterexample: with `JUJU_CHARM_HTTP_PROXY` present but empty,
`_set_proxy` sets neither `HTTP_PROXY` nor `HTTPS_PROXY` — the claim says
presence alone triggers the copy. -/
theorem c9_counterexample_empty_proxy :
    envProxyEmpty "JUJU_CHARM_HTTP_PROXY" = some "" ∧
    set_proxy_env envProxyEmpty "HTTP_PROXY" = none ∧
    set_proxy_env envProxyEmpty "HTTPS_PROXY" = none :=
  ⟨rfl, rfl, rfl⟩

/-- C9 (amended): `_set_proxy` copies the proxy variable into both
`HTTP_PROXY` and `HTTPS_PROXY` exactly when it is present with a
non-empty value; when it is absent or empty, the environment is left
completely unchanged; applying the routine twice equals applying it
once. -/
theorem c9_set_proxy_spec (e : SMap) :
    (∀ v, e "JUJU_CHARM_HTTP_PROXY" = some v → v ≠ "" →
      set_proxy_env e "HTTP_PROXY" = some v ∧
        set_proxy_env e "HTTPS_PROXY" = some v) ∧
    (e "JUJU_CHARM_HTTP_PROXY" = none → set_proxy_env e = e) ∧
    (e "JUJU_CHARM_HTTP_PROXY" = some "" → set_proxy_env e = e) ∧
    set_proxy_env (set_proxy_env e) = set_proxy_env e := by
  refine ⟨?_, ?_, ?_, ?_⟩
  · intro v hv hv0
    constructor <;> simp [set_proxy_env, SMap.set, hv, hv0]
  · intro h
    simp [set_proxy_env, h]
  · intro h
    simp [set_proxy_env, h]
  · cases hv : e "JUJU_CHARM_HTTP_PROXY" with
    | none => simp [set_proxy_env, hv]
    | some v =>
      by_cases hv0 : v = ""
      · simp [set_proxy_env, hv, hv0]
      · have he : set_proxy_env e
            = SMap.set (SMap.set e "HTTP_PROXY" v) "HTTPS_PROXY" v := by
          simp [set_proxy_env, hv, hv0]
        have h2 : (SMap.set (SMap.set e "HTTP_PROXY" v) "HTTPS_PROXY" v)
            "JUJU_CHARM_HTTP_PROXY" = some v := by
          simp [SMap.get_set, hv]
        have he2 : set_proxy_env (SMap.set (SMap.set e "HTTP_PROXY" v) "HTTPS_PROXY" v)
            = SMap.set (SMap.set
                (SMap.set (SMap.set e "HTTP_PROXY" v) "HTTPS_PROXY" v)
                "HTTP_PROXY" v) "HTTPS_PROXY" v := by
          simp [set_proxy_env, h2, hv0]
        rw [he, he2]
        funext q
        simp only [SMap.get_set]
        split_ifs <;> rfl

/-- C9 witness: a present, non-empty proxy variable is copied into both
targets and the routine is idempotent there. -/
theorem c9_witness :
    set_proxy_env envProxySet "HTTP_PROXY" = some "http://squid:3128" ∧
    set_proxy_env envProxySet "HTTPS_PROXY" = some "http://squid:3128" ∧
    set_proxy_env (set_proxy_env envProxySet) = set_proxy_env envProxySet :=
  ⟨((c9_set_proxy_spec envProxySet).1 "http://squid:3128" rfl (by decide)).1,
   ((c9_set_proxy_spec envProxySet).1 "http://squid:3128" rfl (by decide)).2,
   (c9_set_proxy_spec envProxySet).2.2.2⟩

/-- C10: with no `ratings-peers` relation, `_jwt_secret` returns the
empty string and leaves the state untouched — no secret is created or
stored even on the leader (the result carries the input state
unchanged). -/
theorem c10_no_peer_relation (token : String) (s : CharmState)
    (h : s.peerRelation = none) :
    jwt_secret token s = .ok ("", s) := by
  simp [jwt_secret, h]

/-- C10 witness: the base state is a leader with no peer relation. -/
theorem c10_witness :
    jwt_secret "tok" baseState = .ok ("", baseState) ∧
    baseState.isLeader = true :=
  ⟨c10_no_peer_relation "tok" baseState rfl, rfl⟩
